import Mathlib

/-!
Verification of the nof1 AI-trading core: the instruction decoder
(`AIInstructionParser` in `src/services/ai-instruction-parser.ts`) and the
cycle orchestrator (`AITradingService` in `src/services/ai-trading-service.ts`),
shallowly embedded from the TypeScript source.

Modelling conventions:
* JavaScript strings are `List Char` (`Str`); the inputs exercised are ASCII,
  so `\s` and `trim()` are modelled by the ASCII whitespace set.
* JavaScript numbers are `ℚ`: every number the decoder can produce comes from
  `parseFloat` of a cleaned decimal string, hence is a finite decimal; `NaN`
  is mapped to `none` exactly where the source maps it to `undefined`.
* A field a `Partial<TradingInstruction>` may leave `undefined` is an `Option`;
  JavaScript truthiness (`x || d`, `if (x)`) is modelled explicitly
  (`0`, `""`, `undefined` are falsy).
* `Date.now()` is an explicit parameter (`ts`, `env.now`); the wall clock is
  collapsed to a single instant per call site group, so `duration` is `0`.
* The orchestrator's collaborators (exchange reads, model provider, risk
  manager, trade executor) form an explicit environment `CycleEnv` of
  call-indexed oracles; a collaborator call that can reject returns `Except`.
  The risk manager and executor are indexed by the position of the call in the
  cycle so that state-dependent behaviour (cumulative exposure) is expressible.
* Regular expressions of the source are hand-compiled to scanning functions;
  each carries a comment stating the regex it implements.  Scanners that
  advance by more than one character per step take explicit fuel
  `s.length + 1`; each step consumes at least one character, so the fuel
  never runs out.
-/

set_option maxRecDepth 100000

set_option maxHeartbeats 2000000

namespace Nof1

/-- Program text: a JavaScript string as a list of characters. -/
abbrev Str := List Char

/-- Embed a Lean string literal as program text. -/
def str (s : String) : Str := s.data

/-- ASCII whitespace, as matched by `\s` and `String.prototype.trim` on the
character set in play (space, tab, LF, CR, VT, FF). -/
def jsWhitespace (c : Char) : Bool :=
  c == ' ' || c == '\t' || c == '\n' || c == '\r' || c == Char.ofNat 11 || c == Char.ofNat 12

/-- `s.trim()`. -/
def trimStr (s : Str) : Str :=
  ((s.dropWhile jsWhitespace).reverse.dropWhile jsWhitespace).reverse

/-- `s.toLowerCase()` (ASCII). -/
def toLowerStr (s : Str) : Str := s.map Char.toLower

/-- `s.toUpperCase()` (ASCII). -/
def toUpperStr (s : Str) : Str := s.map Char.toUpper

/-- Does `pat` occur at the head of `s` (exact match)? -/
def headMatches : Str → Str → Bool
  | [], _ => true
  | _ :: _, [] => false
  | p :: ps, c :: cs => p == c && headMatches ps cs

/-- Does `pat` occur at the head of `s`, compared case-insensitively? -/
def headMatchesCI : Str → Str → Bool
  | [], _ => true
  | _ :: _, [] => false
  | p :: ps, c :: cs => p.toLower == c.toLower && headMatchesCI ps cs

/-- `s.includes(pat)`. -/
def containsSub (pat : Str) : Str → Bool
  | [] => headMatches pat []
  | c :: cs => headMatches pat (c :: cs) || containsSub pat cs

/-- Split `s` at the first exact occurrence of `pat`:
`some (before, suffixStartingAtMatch)`, or `none` when `pat` never occurs. -/
def splitAtFirst (pat : Str) : Str → Option (Str × Str)
  | [] => if headMatches pat [] then some ([], []) else none
  | c :: cs =>
    if headMatches pat (c :: cs) then some ([], c :: cs)
    else (splitAtFirst pat cs).map (fun pr => (c :: pr.1, pr.2))

/-- Case-insensitive `splitAtFirst`. -/
def splitAtFirstCI (pat : Str) : Str → Option (Str × Str)
  | [] => if headMatchesCI pat [] then some ([], []) else none
  | c :: cs =>
    if headMatchesCI pat (c :: cs) then some ([], c :: cs)
    else (splitAtFirstCI pat cs).map (fun pr => (c :: pr.1, pr.2))

/-- Value of a string of decimal digits. -/
def digitsToNat (ds : Str) : ℕ :=
  ds.foldl (fun acc c => 10 * acc + (c.toNat - 48)) 0

/-- One step of `String.prototype.split(sep)` for a single-character
separator: JavaScript semantics, so `"a:b:c".split(':') = ["a","b","c"]`
and a trailing separator yields a trailing empty piece. -/
def splitOnChar (sep : Char) : Str → List Str
  | [] => [[]]
  | c :: cs =>
    match splitOnChar sep cs with
    | [] => [[]]
    | h :: t => if c == sep then [] :: h :: t else (c :: h) :: t

/-! ### Decoder data model (`ai-instruction-parser.ts`) -/

/-- `TradingInstruction['action']`. -/
inductive Action
  | BUY | SELL | CLOSE | HOLD | SET_STOP_LOSS | SET_TAKE_PROFIT
deriving DecidableEq, Repr

/-- `TradingInstruction['priority']`. -/
inductive Priority
  | HIGH | MEDIUM | LOW
deriving DecidableEq, Repr

/-- `TradingInstruction`.  `reason`, `confidence` and `priority` are declared
non-optional in the TypeScript interface, but `parseTradeBlock` ends in
`instruction as TradingInstruction`, which can leave any of them `undefined`
for a non-HOLD block; they are therefore `Option` here. -/
structure TradingInstruction where
  action : Action
  symbol : Str
  quantity : Option ℚ := none
  price : Option ℚ := none
  leverage : Option ℚ := none
  stopLoss : Option ℚ := none
  takeProfit : Option ℚ := none
  reason : Option Str := none
  confidence : Option ℚ := none
  priority : Option Priority := none
  riskReward : Option Str := none
  maxHoldTime : Option Str := none
  timestamp : ℕ
deriving DecidableEq, Repr

/-- `ValidationResult`. -/
structure ValidationResult where
  isValid : Bool
  errors : List Str
  warnings : List Str
deriving DecidableEq, Repr

/-- `ParseResult`.  An `invalidInstructions` entry is the instruction paired
with its validation errors. -/
structure ParseResult where
  instructions : List TradingInstruction
  rawResponse : Str
  parseErrors : List Str
  validInstructions : List TradingInstruction
  invalidInstructions : List (TradingInstruction × List Str)
deriving DecidableEq, Repr

/-- The `Partial<TradingInstruction>` accumulated by `parseTradeBlock`'s
field loop. -/
structure PartialInstruction where
  action : Option Action := none
  symbol : Option Str := none
  quantity : Option ℚ := none
  price : Option ℚ := none
  leverage : Option ℚ := none
  stopLoss : Option ℚ := none
  takeProfit : Option ℚ := none
  reason : Option Str := none
  confidence : Option ℚ := none
  priority : Option Priority := none
  riskReward : Option Str := none
  maxHoldTime : Option Str := none
deriving DecidableEq, Repr

/-! ### JavaScript truthiness helpers -/

/-- `x || d` for a possibly-undefined string (`undefined` and `""` are falsy). -/
def jsOrStr (o : Option Str) (d : Str) : Str :=
  match o with
  | some (c :: cs) => c :: cs
  | _ => d

/-- `x || d` for a possibly-undefined number (`undefined` and `0` are falsy;
`NaN` cannot occur here). -/
def jsOrQ (o : Option ℚ) (d : ℚ) : ℚ :=
  match o with
  | some x => if x = 0 then d else x
  | none => d

/-- `!x` for a possibly-undefined string. -/
def jsFalsyStrOpt (o : Option Str) : Bool :=
  match o with
  | some (_ :: _) => false
  | _ => true

/-- Truthiness of a possibly-undefined number. -/
def jsTruthyQ (o : Option ℚ) : Bool :=
  match o with
  | some x => decide (x ≠ 0)
  | none => false

/-- `x < y` where `x` may be `undefined` (`undefined < y` is `false` in JS). -/
def jsLtOpt (o : Option ℚ) (y : ℚ) : Bool :=
  match o with
  | some x => decide (x < y)
  | none => false

/-- `x > y` where `x` may be `undefined`. -/
def jsGtOpt (o : Option ℚ) (y : ℚ) : Bool :=
  match o with
  | some x => decide (y < x)
  | none => false

/-! ### `cleanResponse` -/

/-- One global pass of `replace(/```[\s\S]*?```/g, '')`: drop each
fenced region (leftmost opening fence, lazily matched closing fence);
an opening fence with no closing fence leaves the rest untouched, exactly
as the regex then has no further match. -/
def removeFencesAux : ℕ → Str → Str
  | 0, s => s
  | fuel + 1, s =>
    match splitAtFirst (str ("```")) s with
    | none => s
    | some (pre, atOpen) =>
      match splitAtFirst (str ("```")) (atOpen.drop 3) with
      | none => s
      | some (_, atClose) => pre ++ removeFencesAux fuel (atClose.drop 3)

def removeFences (s : Str) : Str := removeFencesAux (s.length + 1) s

/-- Global `replace(pat, '')` for a literal nonempty pattern
(leftmost, non-overlapping). -/
def removeAllAux (pat : Str) : ℕ → Str → Str
  | 0, s => s
  | fuel + 1, s =>
    match splitAtFirst pat s with
    | none => s
    | some (pre, atPat) => pre ++ removeAllAux pat fuel (atPat.drop pat.length)

def removeAll (pat : Str) (s : Str) : Str := removeAllAux pat (s.length + 1) s

/-- One global pass of `replace(/#{1,6}\s/g, '')`.  At a maximal run of `r`
hashes followed by a whitespace character the regex consumes the whole run
plus the whitespace when `r ≤ 6`, and the last six hashes plus the
whitespace when `r > 6` (the greedy quantifier backtracks to a later start). -/
def removeHashesAux : ℕ → Str → Str
  | 0, s => s
  | _ + 1, [] => []
  | fuel + 1, c :: cs =>
    if c == '#' then
      match List.span (fun x => x == '#') (c :: cs) with
      | (hashes, rest) =>
        match rest with
        | w :: rest' =>
          if jsWhitespace w then
            if hashes.length ≤ 6 then removeHashesAux fuel rest'
            else hashes.take (hashes.length - 6) ++ removeHashesAux fuel rest'
          else hashes ++ removeHashesAux fuel rest
        | [] => hashes
    else c :: removeHashesAux fuel cs

def removeHashes (s : Str) : Str := removeHashesAux (s.length + 1) s

/-- `cleanResponse`: strip code fences, then `**`, then `*`, then markdown
headings, then trim. -/
def cleanResponse (response : Str) : Str :=
  trimStr (removeHashes (removeAll (str ("*")) (removeAll (str ("**")) (removeFences response))))

/-! ### `extractTradeBlocks` -/

/-- The literal block marker. -/
def marker : Str := str ("TRADE_DECISION:")

/-- Split `s` at the first position where the stop lookahead
`(?=TRADE_DECISION:|---|$)` of the primary pattern succeeds (before `$`). -/
def splitAtStop : Str → Str × Str
  | [] => ([], [])
  | c :: cs =>
    if headMatchesCI marker (c :: cs) || headMatches (str ("---")) (c :: cs) then ([], c :: cs)
    else
      match splitAtStop cs with
      | (pre, suf) => (c :: pre, suf)

/-- Successive matches of `/TRADE_DECISION:\s*([\s\S]*?)(?=TRADE_DECISION:|---|$)/gi`,
already put through the source's
`match.replace(/^TRADE_DECISION:\s*/i, '').trim()` post-processing. -/
def extractPrimaryAux : ℕ → Str → List Str
  | 0, _ => []
  | fuel + 1, s =>
    match splitAtFirstCI marker s with
    | none => []
    | some (_, atMarker) =>
      match splitAtStop (atMarker.drop marker.length) with
      | (content, rest) => trimStr content :: extractPrimaryAux fuel rest

/-- One char of the `[\s:]` class of the looser pattern. -/
def sepChar (c : Char) : Bool := jsWhitespace c || c == ':'

/-- Length of the keyword matching at the head of `s` in
`(?:TRADE|DECISION|ACTION)[\s:]` (case-insensitive, one separator char
required); the keywords start with distinct letters, so at most one fires. -/
def kwAt (s : Str) : Option ℕ :=
  if headMatchesCI (str ("TRADE")) s && matchSep (s.drop 5) then some 5
  else if headMatchesCI (str ("DECISION")) s && matchSep (s.drop 8) then some 8
  else if headMatchesCI (str ("ACTION")) s && matchSep (s.drop 6) then some 6
  else none
where
  matchSep : Str → Bool
    | [] => false
    | c :: _ => sepChar c

/-- Split at the first position where `kwAt` succeeds. -/
def splitAtFirstKw : Str → Option (Str × Str)
  | [] => none
  | c :: cs =>
    if (kwAt (c :: cs)).isSome then some ([], c :: cs)
    else (splitAtFirstKw cs).map (fun pr => (c :: pr.1, pr.2))

/-- Split at the first position where the lookahead of the looser pattern
succeeds (before `$`). -/
def splitAtKwStop : Str → Str × Str
  | [] => ([], [])
  | c :: cs =>
    if (kwAt (c :: cs)).isSome then ([], c :: cs)
    else
      match splitAtKwStop cs with
      | (pre, suf) => (c :: pre, suf)

/-- Successive matches of the looser pattern
`/(?:TRADE|DECISION|ACTION)[\s:]+[\s\S]*?(?=(?:TRADE|DECISION|ACTION)[\s:]|$)/gi`,
returned verbatim (the source applies no post-processing on this path). -/
def extractLooserAux : ℕ → Str → List Str
  | 0, _ => []
  | fuel + 1, s =>
    match splitAtFirstKw s with
    | none => []
    | some (_, atKw) =>
      let k := (kwAt atKw).getD 0
      match List.span sepChar (atKw.drop k) with
      | (seps, afterSeps) =>
        match splitAtKwStop afterSeps with
        | (mid, rest) => (atKw.take k ++ seps ++ mid) :: extractLooserAux fuel rest

/-- `extractTradeBlocks`: the primary `TRADE_DECISION:` scan, falling back to
the looser keyword scan when the marker never occurs. -/
def extractTradeBlocks (s : Str) : List Str :=
  match splitAtFirstCI marker s with
  | none => extractLooserAux (s.length + 1) s
  | some _ => extractPrimaryAux (s.length + 1) s

/-! ### Field parsers -/

/-- `parseAction`: uppercase, trim, synonym map; unrecognized → `undefined`. -/
def parseAction (v : Str) : Option Action :=
  let a := trimStr (toUpperStr v)
  if a = str ("BUY") ∨ a = str ("LONG") then some Action.BUY
  else if a = str ("SELL") ∨ a = str ("SHORT") then some Action.SELL
  else if a = str ("CLOSE") ∨ a = str ("EXIT") then some Action.CLOSE
  else if a = str ("HOLD") ∨ a = str ("WAIT") then some Action.HOLD
  else if a = str ("SET_STOP_LOSS") then some Action.SET_STOP_LOSS
  else if a = str ("SET_TAKE_PROFIT") then some Action.SET_TAKE_PROFIT
  else none

/-- Drop one optional leading underscore (the `_?` of the symbol-cleanup
regex). -/
def dropOptUnderscore : Str → Str
  | '_' :: rest => rest
  | s => s

/-- `replace(/^(FUTURES?|SPOT)_?/i, '')`: the alternation tries `FUTURES?`
greedily (with the `S` if present) and then `SPOT`. -/
def dropMarketTag (s : Str) : Str :=
  if headMatchesCI (str ("FUTURES")) s then dropOptUnderscore (s.drop 7)
  else if headMatchesCI (str ("FUTURE")) s then dropOptUnderscore (s.drop 6)
  else if headMatchesCI (str ("SPOT")) s then dropOptUnderscore (s.drop 4)
  else s

/-- `parseSymbol`: uppercase+trim, append `USDT` when neither `USDT` nor
`BUSD` occurs, then strip a leading `FUTURES`/`SPOT` tag. -/
def parseSymbol (v : Str) : Str :=
  let s0 := trimStr (toUpperStr v)
  let s1 :=
    if containsSub (str ("USDT")) s0 || containsSub (str ("BUSD")) s0 then s0
    else s0 ++ str ("USDT")
  dropMarketTag s1

/-- `parseFloat` on a string over the alphabet `[0-9.-]` (the only strings it
receives after the `replace(/[^\d.-]/g, '')` strip): optional leading minus,
integer digits, optional fraction; `NaN` (no digit consumed) → `none`. -/
def jsParseFloat (s : Str) : Option ℚ :=
  let (neg, s1) :=
    match s with
    | '-' :: rest => (true, rest)
    | _ => (false, s)
  let (intDs, s2) := List.span Char.isDigit s1
  let fracDs :=
    match s2 with
    | '.' :: r3 => List.takeWhile Char.isDigit r3
    | _ => []
  if intDs = [] ∧ fracDs = [] then none
  else
    let n : ℕ := digitsToNat intDs * 10 ^ fracDs.length + digitsToNat fracDs
    let q : ℚ := mkRat (n : ℤ) (10 ^ fracDs.length)
    some (if neg then -q else q)

/-- `parseNumber`: strip everything outside `[0-9.-]`, `parseFloat`,
`NaN → undefined`. -/
def parseNumber (v : Str) : Option ℚ :=
  jsParseFloat (v.filter (fun c => c.isDigit || c == '.' || c == '-'))

/-- `parsePrice`: a value containing `MARKET` (case-insensitive) means
"market order", i.e. `undefined`. -/
def parsePrice (v : Str) : Option ℚ :=
  if containsSub (str ("MARKET")) (toUpperStr v) then none else parseNumber v

/-- `parsePriority`: synonym map, anything unrecognized is `LOW`. -/
def parsePriority (v : Str) : Priority :=
  let p := trimStr (toUpperStr v)
  if p = str ("HIGH") ∨ p = str ("URGENT") ∨ p = str ("CRITICAL") then Priority.HIGH
  else if p = str ("MEDIUM") ∨ p = str ("NORMAL") ∨ p = str ("MODERATE") then Priority.MEDIUM
  else Priority.LOW

/-! ### `parseTradeBlock` -/

/-- The `switch (lowerKey)` body: assign the parsed value into the partial
instruction (assignment overwrites, including with `undefined`). -/
def applyField (k v : Str) (p : PartialInstruction) : PartialInstruction :=
  if k = str ("action") then { p with action := parseAction v }
  else if k = str ("symbol") then { p with symbol := some (parseSymbol v) }
  else if k = str ("quantity") then { p with quantity := parseNumber v }
  else if k = str ("leverage") then { p with leverage := parseNumber v }
  else if k = str ("entry price") ∨ k = str ("price") then { p with price := parsePrice v }
  else if k = str ("stop loss") ∨ k = str ("stoploss") then { p with stopLoss := parseNumber v }
  else if k = str ("take profit") ∨ k = str ("takeprofit") then { p with takeProfit := parseNumber v }
  else if k = str ("confidence") then { p with confidence := some ((parseNumber v).getD 0) }
  else if k = str ("priority") then { p with priority := some (parsePriority v) }
  else if k = str ("reason") then { p with reason := some v }
  else if k = str ("risk reward") ∨ k = str ("riskreward") then { p with riskReward := some v }
  else if k = str ("max hold time") ∨ k = str ("maxholdtime") then { p with maxHoldTime := some v }
  else p

/-- The line loop of `parseTradeBlock`: a line containing `---` breaks; a
line without `:` is skipped; otherwise the first `:` splits key from value. -/
def parseBlockFields : List Str → PartialInstruction → PartialInstruction
  | [], p => p
  | line :: rest, p =>
    if containsSub (str ("---")) line then p
    else
      match splitOnChar ':' line with
      | [] => parseBlockFields rest p
      | [_] => parseBlockFields rest p
      | key :: v1 :: vrest =>
        let value := trimStr (List.intercalate (str (":")) (v1 :: vrest))
        let lowerKey := trimStr (toLowerStr key)
        parseBlockFields rest (applyField lowerKey value p)

/-- The trimmed nonempty lines of a block. -/
def prepLines (block : Str) : List Str :=
  ((splitOnChar '\n' block).map trimStr).filter (fun l => !l.isEmpty)

/-- The partial instruction a block parses to. -/
def blockFields (block : Str) : PartialInstruction :=
  parseBlockFields (prepLines block) {}

/-- `parseTradeBlock`: `null` without an action or with a falsy symbol;
a HOLD action materializes the HOLD defaults (`||` semantics: an explicit
`0` confidence also becomes `50`); anything else is the partial cast to
`TradingInstruction`. -/
def parseTradeBlock (block : Str) (ts : ℕ) : Option TradingInstruction :=
  match (blockFields block).action with
  | none => none
  | some a =>
    if jsFalsyStrOpt (blockFields block).symbol then none
    else if a = Action.HOLD then
      some
        { action := Action.HOLD
          symbol := jsOrStr (blockFields block).symbol (str ("ALL"))
          reason := some (jsOrStr (blockFields block).reason
            (str ("AI recommends holding current positions")))
          confidence := some (jsOrQ (blockFields block).confidence 50)
          priority := some ((blockFields block).priority.getD Priority.LOW)
          timestamp := ts }
    else
      some
        { action := a
          symbol := (blockFields block).symbol.getD []
          quantity := (blockFields block).quantity
          price := (blockFields block).price
          leverage := (blockFields block).leverage
          stopLoss := (blockFields block).stopLoss
          takeProfit := (blockFields block).takeProfit
          reason := (blockFields block).reason
          confidence := (blockFields block).confidence
          priority := (blockFields block).priority
          riskReward := (blockFields block).riskReward
          maxHoldTime := (blockFields block).maxHoldTime
          timestamp := ts }

/-! ### `parseFallbackResponse` -/

/-- A match of `/([A-Z]{2,10}(?:USDT|BUSD))/` anchored at the head of `s`:
greedy `[A-Z]{2,10}` backtracking from 10 down to 2 until the suffix fits. -/
def symbolTokenAt (s : Str) : Option Str :=
  tryLen 10 <|> tryLen 9 <|> tryLen 8 <|> tryLen 7 <|> tryLen 6 <|>
    tryLen 5 <|> tryLen 4 <|> tryLen 3 <|> tryLen 2
where
  tryLen (k : ℕ) : Option Str :=
    let head := s.take k
    let suf := (s.drop k).take 4
    if head.length = k ∧ head.all (fun c => 'A' ≤ c ∧ c ≤ 'Z') ∧
        (suf = str ("USDT") ∨ suf = str ("BUSD")) then
      some (head ++ suf)
    else none

/-- Leftmost match of `/([A-Z]{2,10}(?:USDT|BUSD))/` (no `g`, no `i`). -/
def findSymbolToken : Str → Option Str
  | [] => none
  | c :: cs =>
    match symbolTokenAt (c :: cs) with
    | some t => some t
    | none => findSymbolToken cs

/-- The directional-keyword scan of `parseFallbackResponse` (applied to the
lowercased response): `buy`/`long` wins over `sell`/`short`. -/
def fallbackAction (lower : Str) : Option Action :=
  if containsSub (str ("buy")) lower || containsSub (str ("long")) lower then some Action.BUY
  else if containsSub (str ("sell")) lower || containsSub (str ("short")) lower then
    some Action.SELL
  else none

/-- `parseFallbackResponse`: hold-intent keywords beat directional keywords;
a directional keyword needs a symbol-shaped token to produce an instruction. -/
def parseFallbackResponse (response : Str) (ts : ℕ) : Option TradingInstruction :=
  if containsSub (str ("hold")) (toLowerStr response) ||
      containsSub (str ("wait")) (toLowerStr response) ||
      containsSub (str ("no trade")) (toLowerStr response) then
    some
      { action := Action.HOLD
        symbol := str ("ALL")
        reason := some (str ("AI recommends holding based on current market conditions"))
        confidence := some 50
        priority := some Priority.LOW
        timestamp := ts }
  else
    match fallbackAction (toLowerStr response), findSymbolToken response with
    | some a, some sym =>
      some
        { action := a
          symbol := sym
          reason := some (str ("Parsed from unstructured AI response"))
          confidence := some 30
          priority := some Priority.LOW
          timestamp := ts }
    | _, _ => none

/-! ### `validateInstruction` -/

/-- The fixed supported-pairs allow-list of `isValidSymbol`. -/
def validSymbols : List Str :=
  [str ("BTCUSDT"), str ("ETHUSDT"), str ("ADAUSDT"), str ("DOGEUSDT"), str ("BNBUSDT"),
   str ("XRPUSDT"), str ("SOLUSDT"), str ("MATICUSDT"), str ("DOTUSDT"), str ("AVAXUSDT"),
   str ("LTCUSDT"), str ("LINKUSDT"), str ("UNIUSDT"), str ("ATOMUSDT"), str ("FILUSDT"),
   str ("TRXUSDT"), str ("ETCUSDT"), str ("XLMUSDT"), str ("VETUSDT"), str ("ICPUSDT")]

/-- `isValidSymbol`. -/
def isValidSymbol (s : Str) : Bool :=
  decide (toUpperStr s ∈ validSymbols)

/-- The confidence range check of `validateInstruction`
(`confidence < 0 || confidence > 100`; an `undefined` confidence compares
false both ways and is never flagged). -/
def confidenceRangeErrors (c : Option ℚ) : List Str :=
  if jsLtOpt c 0 || jsGtOpt c 100 then [str ("Confidence must be between 0 and 100")] else []

/-- The leverage range check (`leverage && (leverage < 1 || leverage > 50)`;
truthiness makes a zero leverage pass unflagged). -/
def leverageRangeErrors (l : Option ℚ) : List Str :=
  if jsTruthyQ l && (jsLtOpt l 1 || jsGtOpt l 50) then
    [str ("Leverage must be between 1 and 50")]
  else []

/-- Leftmost match of `/1:(\d+\.?\d*)/` at the head of `s`, as a value
(a trailing `.` in the group does not change the parsed number). -/
def ratioAt : Str → Option ℚ
  | '1' :: ':' :: rest =>
    match List.span Char.isDigit rest with
    | (ds, r2) =>
      if ds.isEmpty then none
      else
        let fds :=
          match r2 with
          | '.' :: r3 => List.takeWhile Char.isDigit r3
          | _ => []
        some (mkRat ((digitsToNat ds * 10 ^ fds.length + digitsToNat fds : ℕ) : ℤ)
          (10 ^ fds.length))
  | _ => none

/-- Leftmost `/1:(\d+\.?\d*)/` match anywhere in `s`. -/
def findRiskRatio : Str → Option ℚ
  | [] => none
  | c :: cs =>
    match ratioAt (c :: cs) with
    | some q => some q
    | none => findRiskRatio cs

/-- The risk/reward warning of `validateInstruction`. -/
def riskRewardWarnings (rr : Option Str) : List Str :=
  match rr with
  | some (c :: cs) =>
    match findRiskRatio (c :: cs) with
    | some q =>
      if q < mkRat 3 2 then
        [str ("Risk/reward ratio is less than 1:1.5 - consider better opportunities")]
      else []
    | none => []
  | _ => []

/-- `validateInstruction`.  Error and warning entries appear in the source's
push order.  `action` is always present in this embedding (every constructed
instruction carries one), so the `"Action is required"` push is unreachable
and contributes the empty list. -/
def validateInstruction (inst : TradingInstruction) : ValidationResult :=
  let nonHoldClose : Bool := !(inst.action == Action.HOLD) && !(inst.action == Action.CLOSE)
  let eSymbol := if inst.symbol.isEmpty then [str ("Symbol is required")] else []
  let eQtyPrice :=
    if nonHoldClose && !jsTruthyQ inst.quantity && !jsTruthyQ inst.price then
      [str ("Either quantity or price must be specified for trading actions")]
    else []
  let eLev := if nonHoldClose then leverageRangeErrors inst.leverage else []
  let eConf := confidenceRangeErrors inst.confidence
  let eSym2 :=
    if !inst.symbol.isEmpty && !isValidSymbol inst.symbol then
      [str ("Invalid trading symbol: ") ++ inst.symbol]
    else []
  let wReason := if jsFalsyStrOpt inst.reason then [str ("No reason provided for trading decision")] else []
  let wSL :=
    if nonHoldClose && (inst.action == Action.BUY || inst.action == Action.SELL) &&
        !jsTruthyQ inst.stopLoss then
      [str ("No stop loss specified - high risk")]
    else []
  let wTP :=
    if nonHoldClose && (inst.action == Action.BUY || inst.action == Action.SELL) &&
        !jsTruthyQ inst.takeProfit then
      [str ("No take profit specified - consider setting exit strategy")]
    else []
  let wConf := if jsLtOpt inst.confidence 50 then [str ("Low confidence level - consider skipping this trade")] else []
  let wRR := riskRewardWarnings inst.riskReward
  let errors := eSymbol ++ eQtyPrice ++ eLev ++ eConf ++ eSym2
  { isValid := errors.isEmpty
    errors := errors
    warnings := wReason ++ wSL ++ wTP ++ wConf ++ wRR }

/-! ### `parseAIResponse` -/

/-- The instructions decoded from already-cleaned text: block parsing, or the
fallback path when no block was extracted.  `parseTradeBlock` throws on no
input (its operations are total), so the per-block `try`/`catch` never fires
and a `null` block is simply dropped. -/
def rawInstructions (cleaned : Str) (ts : ℕ) : List TradingInstruction :=
  if extractTradeBlocks cleaned = [] then
    match parseFallbackResponse cleaned ts with
    | some i => [i]
    | none => []
  else (extractTradeBlocks cleaned).filterMap (fun b => parseTradeBlock b ts)

/-- The decoder-level `parseErrors`: the only reachable entry is the
missing-blocks message. -/
def decoderParseErrors (cleaned : Str) : List Str :=
  if extractTradeBlocks cleaned = [] then
    [str ("No TRADE_DECISION blocks found in AI response")]
  else []

/-- The validation loop of `parseAIResponse`: split the decoded instructions
into valid ones and invalid ones paired with their errors, in order. -/
def partitionValidated : List TradingInstruction →
    List TradingInstruction × List (TradingInstruction × List Str)
  | [] => ([], [])
  | i :: rest =>
    if (validateInstruction i).isValid then
      (i :: (partitionValidated rest).1, (partitionValidated rest).2)
    else
      ((partitionValidated rest).1, (i, (validateInstruction i).errors) :: (partitionValidated rest).2)

/-- `parseAIResponse`.  Every operation of the source body is total, so the
outer `catch` (which would return an empty result with a
`Critical parsing error` entry) is unreachable. -/
def parseAIResponse (response : Str) (ts : ℕ) : ParseResult :=
  let cleaned := cleanResponse response
  { instructions := rawInstructions cleaned ts
    rawResponse := response
    parseErrors := decoderParseErrors cleaned
    validInstructions := (partitionValidated (rawInstructions cleaned ts)).1
    invalidInstructions := (partitionValidated (rawInstructions cleaned ts)).2 }

/-! ### Orchestrator data model (`ai-trading-service.ts`) -/

/-- `AccountSummary`.  The source builds it with `parseFloat` over the
exchange DTO's string fields; the environment supplies the parsed values
directly (no claim depends on that string-to-number step). -/
structure AccountSummary where
  availableBalance : ℚ
  totalWalletBalance : ℚ
  totalUnrealizedProfit : ℚ
  totalMarginBalance : ℚ
  totalPositionInitialMargin : ℚ
deriving DecidableEq, Repr

/-- A futures position as used by `gatherMarketData` (only `positionAmt` is
inspected by the core). -/
structure Position where
  symbol : Str
  positionAmt : ℚ
deriving DecidableEq, Repr

/-- The fields of a `24hrTicker` DTO read by `getSymbolData`, already parsed. -/
structure Ticker where
  lastPrice : ℚ
  priceChangePercent : ℚ
  volume : ℚ
deriving DecidableEq, Repr

/-- `SymbolData['technicalIndicators']`. -/
structure TechnicalIndicators where
  rsi : ℚ
  macd : ℚ
  ema20 : ℚ
  ema50 : ℚ
  support : ℚ
  resistance : ℚ
deriving DecidableEq, Repr

/-- `SymbolData`. -/
structure SymbolData where
  symbol : Str
  currentPrice : ℚ
  priceChange24h : ℚ
  volume24h : ℚ
  volatility : ℚ
  technicalIndicators : TechnicalIndicators
deriving DecidableEq, Repr

/-- `TrendAnalysis`. -/
structure TrendAnalysis where
  overallSentiment : Str
  marketPhase : Str
  majorSupport : ℚ
  majorResistance : ℚ
  volatilityLevel : Str
deriving DecidableEq, Repr

/-- `RiskMetrics`. -/
structure RiskMetrics where
  portfolioExposure : ℚ
  maxDrawdown : ℚ
  sharpeRatio : ℚ
  winRate : ℚ
  averageRiskReward : ℚ
  fearGreedIndex : Option ℚ := none
deriving DecidableEq, Repr

/-- `MarketData`. -/
structure MarketData where
  timestamp : ℕ
  symbols : List SymbolData
  accountInfo : AccountSummary
  currentPositions : List Position
  marketTrends : TrendAnalysis
  riskMetrics : RiskMetrics
deriving DecidableEq, Repr

/-- `ExecutionResult`. -/
structure ExecutionResult where
  success : Bool
  instruction : TradingInstruction
  binanceOrderId : Option ℕ := none
  executedPrice : Option ℚ := none
  executedQuantity : Option ℚ := none
  error : Option Str := none
  timestamp : ℕ
deriving DecidableEq, Repr

/-- `TradingCycleResult`. -/
structure TradingCycleResult where
  timestamp : ℕ
  aiProvider : Str
  prompt : Str
  aiResponse : Str
  instructions : List TradingInstruction
  executionResults : List ExecutionResult
  success : Bool
  error : Option Str := none
  cycleId : Str
  duration : ℕ
deriving DecidableEq, Repr

/-- The risk manager's verdict (`RiskManager.assessRisk`). -/
structure RiskAssessment where
  canExecute : Bool
  reasons : List Str
deriving DecidableEq, Repr

/-- `AITradingConfig` (the fields the core reads; the provider object is
represented by its `name`, and the template by nothing because `buildPrompt`'s
output never reaches a cycle record — the source stores `prompt: ''`). -/
structure AITradingConfig where
  aiProviderName : Str
  tradingPairs : List Str
  maxPositions : ℕ
  maxDailyTrades : ℕ
  maxPortfolioExposure : ℚ
  maxPositionSize : ℚ
  minConfidenceThreshold : ℚ
  technicalIndicatorsEnabled : Bool
  sentimentAnalysisEnabled : Bool
  telegramEnabled : Bool
  dryRun : Bool
  intervalSeconds : ℕ

/-- The orchestrator's mutable counters. -/
structure OrchState where
  isRunning : Bool := false
  currentCycle : ℕ := 0
  totalExecutedTrades : ℕ := 0
  dailyTradeCount : ℕ := 0
  lastResetDate : Str
deriving DecidableEq, Repr

/-- One cycle's view of the external collaborators.  `Date.now()` is `now`,
the generated cycle id is `cycleId`, and `new Date().toDateString()` is
`today`.  `assessRisk`/`execute` are indexed by the position of the call in
the cycle's execution loop, which lets a stateful risk manager (cumulative
exposure) be expressed. -/
structure CycleEnv where
  today : Str
  now : ℕ
  cycleId : Str
  accountInfo : Except Str AccountSummary
  positions : Except Str (List Position)
  ticker : Str → Except Str Ticker
  klines : Str → Except Str (List ℚ)
  aiContent : Except Str Str
  assessRisk : ℕ → TradingInstruction → RiskAssessment
  execute : ℕ → TradingInstruction → Except Str ExecutionResult

/-- Observable collaborator calls made by one cycle (used to state that the
skip path performs none). -/
inductive CycleEffect
  | gatherData
  | invokeModel
  | executeTrade (k : ℕ)
deriving DecidableEq, Repr

/-! ### Market-data gathering -/

/-- `calculateRSI` (placeholder in the source). -/
def calculateRSI (_klines : List ℚ) : ℚ := 50

/-- `calculateMACD` (placeholder). -/
def calculateMACD (_klines : List ℚ) : ℚ := 0

/-- `calculateEMA` (placeholder). -/
def calculateEMA (_klines : List ℚ) (_period : ℕ) : ℚ := 0

/-- `calculateSupport` (placeholder). -/
def calculateSupport (_klines : List ℚ) : ℚ := 0

/-- `calculateResistance` (placeholder). -/
def calculateResistance (_klines : List ℚ) : ℚ := 0

/-- `calculateVolatility`. -/
def calculateVolatility (t : Ticker) : ℚ := |t.priceChangePercent|

/-- The neutral indicator defaults used when indicators are disabled or the
kline fetch fails. -/
def neutralIndicators : TechnicalIndicators :=
  { rsi := 50, macd := 0, ema20 := 0, ema50 := 0, support := 0, resistance := 0 }

/-- `getTechnicalIndicators`: disabled → defaults; kline fetch failure is
caught and degrades to the defaults; otherwise the placeholder calculators. -/
def getTechnicalIndicators (cfg : AITradingConfig) (env : CycleEnv) (sym : Str) :
    TechnicalIndicators :=
  if !cfg.technicalIndicatorsEnabled then neutralIndicators
  else
    match env.klines sym with
    | Except.error _ => neutralIndicators
    | Except.ok ks =>
      { rsi := calculateRSI ks
        macd := calculateMACD ks
        ema20 := calculateEMA ks 20
        ema50 := calculateEMA ks 50
        support := calculateSupport ks
        resistance := calculateResistance ks }

/-- The per-symbol body of `getSymbolData`.  The `Promise.all` pair awaits the
ticker and the indicators; the indicator side never rejects (it catches its
own failures), so only a ticker rejection reaches the symbol-level `catch`,
which logs and skips the symbol. -/
def symbolDataFor (cfg : AITradingConfig) (env : CycleEnv) (sym : Str) : Option SymbolData :=
  match env.ticker sym with
  | Except.error _ => none
  | Except.ok t =>
    some
      { symbol := sym
        currentPrice := t.lastPrice
        priceChange24h := t.priceChangePercent
        volume24h := t.volume
        volatility := calculateVolatility t
        technicalIndicators := getTechnicalIndicators cfg env sym }

/-- `getSymbolData` over the configured trading pairs. -/
def getSymbolData (cfg : AITradingConfig) (env : CycleEnv) : List SymbolData :=
  cfg.tradingPairs.filterMap (symbolDataFor cfg env)

/-- `analyzeTrends` (constant in the source). -/
def analyzeTrends (_symbols : List SymbolData) : TrendAnalysis :=
  { overallSentiment := str ("Neutral"), marketPhase := str ("Consolidation")
    majorSupport := 0, majorResistance := 0, volatilityLevel := str ("MEDIUM") }

/-- `calculateRiskMetrics` (constant in the source). -/
def calculateRiskMetrics (_positions : List Position) (_acc : AccountSummary) : RiskMetrics :=
  { portfolioExposure := 0, maxDrawdown := 0, sharpeRatio := 0, winRate := 0
    averageRiskReward := 0 }

/-- `gatherMarketData`.  The opening `Promise.all` rejects as soon as the
account-info or positions read rejects (`getPriceData` returns a constant and
cannot fail), which propagates as a cycle-level failure; the subsequent
`getSymbolData` never rejects. -/
def gatherMarketData (cfg : AITradingConfig) (env : CycleEnv) : Except Str MarketData :=
  match env.accountInfo with
  | Except.error e => Except.error e
  | Except.ok acc =>
    match env.positions with
    | Except.error e => Except.error e
    | Except.ok ps =>
      let symbols := getSymbolData cfg env
      Except.ok
        { timestamp := env.now
          symbols := symbols
          accountInfo := acc
          currentPositions := ps.filter (fun p => decide (p.positionAmt ≠ 0))
          marketTrends := analyzeTrends symbols
          riskMetrics := calculateRiskMetrics ps acc }

/-! ### Instruction filtering and execution -/

/-- `filterInstructions`: drop below-threshold confidence (an `undefined`
confidence compares false and survives), symbols outside the configured
pairs, and HOLD instructions. -/
def filterInstructions (cfg : AITradingConfig) (pr : ParseResult) : List TradingInstruction :=
  pr.validInstructions.filter fun inst =>
    !jsLtOpt inst.confidence cfg.minConfidenceThreshold &&
      decide (inst.symbol ∈ cfg.tradingPairs) && !(inst.action == Action.HOLD)

/-- `executeInstruction`: the risk check throws on `canExecute == false`, the
local `catch` converts the throw (or an executor rejection) into a failed
`ExecutionResult`; a returned executor result passes through.  The method
itself never throws. -/
def execInstruction (env : CycleEnv) (k : ℕ) (inst : TradingInstruction) : ExecutionResult :=
  let ra := env.assessRisk k inst
  if ra.canExecute then
    match env.execute k inst with
    | Except.ok r => r
    | Except.error e => { success := false, instruction := inst, error := some e, timestamp := env.now }
  else
    { success := false
      instruction := inst
      error := some (str ("Risk check failed: ") ++ List.intercalate (str (", ")) ra.reasons)
      timestamp := env.now }

/-- The sequential execution loop of `executeAITradingCycle`: each result is
pushed, and a successful one increments both trade counters. -/
def runInstructions (env : CycleEnv) :
    ℕ → OrchState → List TradingInstruction → List ExecutionResult × OrchState
  | _, st, [] => ([], st)
  | k, st, inst :: rest =>
    let r := execInstruction env k inst
    let st' :=
      if r.success then
        { st with
          totalExecutedTrades := st.totalExecutedTrades + 1
          dailyTradeCount := st.dailyTradeCount + 1 }
      else st
    let (rs, st'') := runInstructions env (k + 1) st' rest
    (r :: rs, st'')

/-! ### Cycle results and the cycle itself -/

/-- `resetDailyCountIfNeeded`: compare the local calendar-day string. -/
def resetDailyCountIfNeeded (today : Str) (st : OrchState) : OrchState :=
  if today ≠ st.lastResetDate then
    { st with dailyTradeCount := 0, lastResetDate := today }
  else st

/-- `createSkippedCycleResult`. -/
def createSkippedCycleResult (cfg : AITradingConfig) (env : CycleEnv) (reason : Str) :
    TradingCycleResult :=
  { timestamp := env.now
    aiProvider := cfg.aiProviderName
    prompt := []
    aiResponse := str ("Cycle skipped: ") ++ reason
    instructions := []
    executionResults := []
    success := true
    cycleId := env.cycleId
    duration := 0 }

/-- `createFailedCycleResult`. -/
def createFailedCycleResult (cfg : AITradingConfig) (env : CycleEnv) (e : Str) :
    TradingCycleResult :=
  { timestamp := env.now
    aiProvider := cfg.aiProviderName
    prompt := []
    aiResponse := []
    instructions := []
    executionResults := []
    success := false
    error := some e
    cycleId := env.cycleId
    duration := 0 }

/-- `createSuccessfulCycleResult` (the source stores `prompt: ''` and the
*filtered* instruction list). -/
def createSuccessfulCycleResult (cfg : AITradingConfig) (env : CycleEnv) (content : Str)
    (instructions : List TradingInstruction) (executionResults : List ExecutionResult) :
    TradingCycleResult :=
  { timestamp := env.now
    aiProvider := cfg.aiProviderName
    prompt := []
    aiResponse := content
    instructions := instructions
    executionResults := executionResults
    success := true
    cycleId := env.cycleId
    duration := 0 }

/-- `executeAITradingCycle`.  Returns the cycle record, the updated counters
and the list of collaborator calls performed.  The outer `catch` corresponds
to the `Except.error` branches of the two awaits that can reject (market-data
gather and the model call); `buildPrompt` is pure string formatting whose
output never reaches the record (`prompt: ''`) and is omitted.  The failure
paths do not increment `currentCycle`, matching the source. -/
def executeAITradingCycle (cfg : AITradingConfig) (env : CycleEnv) (st : OrchState) :
    TradingCycleResult × OrchState × List CycleEffect :=
  let st1 := resetDailyCountIfNeeded env.today st
  if cfg.maxDailyTrades ≤ st1.dailyTradeCount then
    (createSkippedCycleResult cfg env (str ("Daily trade limit reached")), st1, [])
  else
    match gatherMarketData cfg env with
    | Except.error e => (createFailedCycleResult cfg env e, st1, [CycleEffect.gatherData])
    | Except.ok _ =>
      match env.aiContent with
      | Except.error e =>
        (createFailedCycleResult cfg env e, st1,
          [CycleEffect.gatherData, CycleEffect.invokeModel])
      | Except.ok content =>
        let parseResult := parseAIResponse content env.now
        let valid := filterInstructions cfg parseResult
        let (executionResults, st2) :=
          if !cfg.dryRun && decide (0 < valid.length) then runInstructions env 0 st1 valid
          else ([], st1)
        let execEffects :=
          if !cfg.dryRun && decide (0 < valid.length) then
            (List.range valid.length).map CycleEffect.executeTrade
          else []
        (createSuccessfulCycleResult cfg env content valid executionResults,
          { st2 with currentCycle := st2.currentCycle + 1 },
          [CycleEffect.gatherData, CycleEffect.invokeModel] ++ execEffects)

/-! ### Concrete fixtures used by witnesses and counterexamples -/

/-- A configuration at its daily cap scenario: cap 5. -/
def w1Cfg : AITradingConfig :=
  { aiProviderName := str ("Anthropic Claude")
    tradingPairs := [str ("BTCUSDT")]
    maxPositions := 3
    maxDailyTrades := 5
    maxPortfolioExposure := 50
    maxPositionSize := 1000
    minConfidenceThreshold := 70
    technicalIndicatorsEnabled := true
    sentimentAnalysisEnabled := false
    telegramEnabled := false
    dryRun := false
    intervalSeconds := 300 }

/-- Counters already at the cap on the current day. -/
def w1St : OrchState :=
  { isRunning := true
    currentCycle := 7
    totalExecutedTrades := 5
    dailyTradeCount := 5
    lastResetDate := str ("Mon Oct 06 2025") }

/-- An environment for the skip scenario; every collaborator would fail if it
were (incorrectly) consulted. -/
def w1Env : CycleEnv :=
  { today := str ("Mon Oct 06 2025")
    now := 0
    cycleId := str ("cycle_skip")
    accountInfo := Except.error (str ("unused"))
    positions := Except.error (str ("unused"))
    ticker := fun _ => Except.error (str ("unused"))
    klines := fun _ => Except.error (str ("unused"))
    aiContent := Except.error (str ("unused"))
    assessRisk := fun _ _ => { canExecute := false, reasons := [] }
    execute := fun _ _ => Except.error (str ("unused")) }

/-- A model response with two well-formed blocks (both surviving the filter). -/
def w5Content : Str :=
  str ("TRADE_DECISION:\nAction: BUY\nSymbol: BTCUSDT\nQuantity: 1\nConfidence: 80\nReason: a\n---\nTRADE_DECISION:\nAction: SELL\nSymbol: ETHUSDT\nQuantity: 2\nConfidence: 80\nReason: b\n---")

/-- The first decoded instruction of `w5Content`. -/
def w5Buy : TradingInstruction :=
  { action := Action.BUY
    symbol := str ("BTCUSDT")
    quantity := some 1
    reason := some (str ("a"))
    confidence := some 80
    timestamp := 0 }

/-- The second decoded instruction of `w5Content`. -/
def w5Sell : TradingInstruction :=
  { action := Action.SELL
    symbol := str ("ETHUSDT")
    quantity := some 2
    reason := some (str ("b"))
    confidence := some 80
    timestamp := 0 }

/-- The executor's successful result for the first instruction. -/
def w5OkResult : ExecutionResult :=
  { success := true
    instruction := w5Buy
    binanceOrderId := some 1
    executedPrice := some 100
    executedQuantity := some 1
    timestamp := 0 }

/-- Configuration for the two-instruction cycle. -/
def w5Cfg : AITradingConfig :=
  { aiProviderName := str ("Anthropic Claude")
    tradingPairs := [str ("BTCUSDT"), str ("ETHUSDT")]
    maxPositions := 3
    maxDailyTrades := 10
    maxPortfolioExposure := 50
    maxPositionSize := 1000
    minConfidenceThreshold := 50
    technicalIndicatorsEnabled := false
    sentimentAnalysisEnabled := false
    telegramEnabled := false
    dryRun := false
    intervalSeconds := 300 }

/-- Initial counters for the two-instruction cycle. -/
def w5St : OrchState :=
  { lastResetDate := str ("Mon Oct 06 2025") }

/-- Environment in which the risk manager allows the first instruction and
rejects the second (simulated cumulative exposure). -/
def w5Env : CycleEnv :=
  { today := str ("Mon Oct 06 2025")
    now := 0
    cycleId := str ("cycle_two")
    accountInfo := Except.ok
      { availableBalance := 1000, totalWalletBalance := 1000, totalUnrealizedProfit := 0,
        totalMarginBalance := 1000, totalPositionInitialMargin := 0 }
    positions := Except.ok []
    ticker := fun _ => Except.ok { lastPrice := 100, priceChangePercent := 1, volume := 10 }
    klines := fun _ => Except.ok []
    aiContent := Except.ok w5Content
    assessRisk := fun k _ =>
      if k == 1 then { canExecute := false, reasons := [str ("portfolio exposure limit reached")] }
      else { canExecute := true, reasons := [] }
    execute := fun _ _ => Except.ok w5OkResult }

/-- A BUY instruction with both confidence and leverage out of range. -/
def w4Inst : TradingInstruction :=
  { action := Action.BUY
    symbol := str ("BTCUSDT")
    quantity := some 1
    leverage := some 100
    confidence := some 150
    reason := some (str ("x"))
    timestamp := 0 }

/-- A decoded BUY instruction whose block had no confidence line. -/
def w7Inst : TradingInstruction :=
  { action := Action.BUY
    symbol := str ("BTCUSDT")
    quantity := some 1
    timestamp := 0 }

/-- Account summary for the gather fixtures. -/
def w8Acc : AccountSummary :=
  { availableBalance := 1000, totalWalletBalance := 1000, totalUnrealizedProfit := 0,
    totalMarginBalance := 1000, totalPositionInitialMargin := 0 }

/-- Gather configuration with one trading pair. -/
def w8Cfg : AITradingConfig :=
  { aiProviderName := str ("Anthropic Claude")
    tradingPairs := [str ("BTCUSDT")]
    maxPositions := 3
    maxDailyTrades := 10
    maxPortfolioExposure := 50
    maxPositionSize := 1000
    minConfidenceThreshold := 70
    technicalIndicatorsEnabled := true
    sentimentAnalysisEnabled := false
    telegramEnabled := false
    dryRun := false
    intervalSeconds := 300 }

/-- Environment in which the account and position reads succeed but the only
symbol's 24hr-ticker fetch fails. -/
def w8Env : CycleEnv :=
  { today := str ("Mon Oct 06 2025")
    now := 0
    cycleId := str ("cycle_gather")
    accountInfo := Except.ok w8Acc
    positions := Except.ok []
    ticker := fun _ => Except.error (str ("boom"))
    klines := fun _ => Except.ok []
    aiContent := Except.ok (str ("no trade"))
    assessRisk := fun _ _ => { canExecute := true, reasons := [] }
    execute := fun _ _ => Except.error (str ("unused")) }

/-- The market data `gatherMarketData` produces in `w8Env`: the failed symbol
is silently absent. -/
def w8Md : MarketData :=
  { timestamp := 0
    symbols := []
    accountInfo := w8Acc
    currentPositions := []
    marketTrends := analyzeTrends []
    riskMetrics := calculateRiskMetrics [] w8Acc }

/-- Environment in which the account-info read itself fails. -/
def w8FailEnv : CycleEnv :=
  { w8Env with accountInfo := Except.error (str ("account down")) }

/-- The HOLD instruction materialized by the fallback parse. -/
def fallbackHold (ts : ℕ) : TradingInstruction :=
  { action := Action.HOLD
    symbol := str ("ALL")
    reason := some (str ("AI recommends holding based on current market conditions"))
    confidence := some 50
    priority := some Priority.LOW
    timestamp := ts }

/-! ### Helper lemmas -/

theorem validateInstruction_isValid_eq (inst : TradingInstruction) :
    (validateInstruction inst).isValid = (validateInstruction inst).errors.isEmpty := rfl

theorem validateInstruction_errors_ne_nil (inst : TradingInstruction)
    (h : (validateInstruction inst).isValid = false) :
    (validateInstruction inst).errors ≠ [] := by
  rw [validateInstruction_isValid_eq] at h
  cases hl : (validateInstruction inst).errors with
  | nil => rw [hl] at h; simp at h
  | cons a l => exact List.cons_ne_nil a l

theorem partitionValidated_invalid :
    ∀ (l : List TradingInstruction) (e : TradingInstruction × List Str),
      e ∈ (partitionValidated l).2 → e.2 ≠ [] := by
  intro l
  induction l with
  | nil => intro e he; simp [partitionValidated] at he
  | cons i rest ih =>
    intro e he
    by_cases hv : (validateInstruction i).isValid
    · rw [partitionValidated, if_pos hv] at he
      exact ih e he
    · rw [partitionValidated, if_neg hv] at he
      rcases List.mem_cons.mp he with h1 | h2
      · subst h1
        exact validateInstruction_errors_ne_nil i (Bool.eq_false_iff.mpr hv)
      · exact ih e h2

theorem fallbackAction_ne_hold (l : Str) : fallbackAction l ≠ some Action.HOLD := by
  unfold fallbackAction
  split
  · simp
  · split
    · simp
    · simp

theorem jsOrStr_ne_nil (o : Option Str) (d : Str) (hd : d ≠ []) : jsOrStr o d ≠ [] := by
  cases o with
  | none => simpa [jsOrStr] using hd
  | some s =>
    cases s with
    | nil => simpa [jsOrStr] using hd
    | cons c cs => simp [jsOrStr]

theorem runInstructions_fst_indep (env : CycleEnv) :
    ∀ (l : List TradingInstruction) (k : ℕ) (st st' : OrchState),
      (runInstructions env k st l).1 = (runInstructions env k st' l).1 := by
  intro l
  induction l with
  | nil => intro k st st'; rfl
  | cons inst rest ih =>
    intro k st st'
    simp only [runInstructions]
    exact congrArg (execInstruction env k inst :: ·) (ih (k + 1) _ _)

theorem runInstructions_length (env : CycleEnv) :
    ∀ (l : List TradingInstruction) (k : ℕ) (st : OrchState),
      (runInstructions env k st l).1.length = l.length := by
  intro l
  induction l with
  | nil => intro k st; rfl
  | cons inst rest ih =>
    intro k st
    simp only [runInstructions, List.length_cons]
    rw [ih]

theorem runInstructions_getElem? (env : CycleEnv) :
    ∀ (l : List TradingInstruction) (k : ℕ) (st : OrchState) (j : ℕ),
      (runInstructions env k st l).1.get? j =
        (l.get? j).map (fun a => execInstruction env (k + j) a) := by
  intro l
  induction l with
  | nil => intro k st j; simp [runInstructions]
  | cons inst rest ih =>
    intro k st j
    cases j with
    | zero => simp [runInstructions]
    | succ j' =>
      simp only [runInstructions, List.get?]
      have hk : k + (j' + 1) = (k + 1) + j' := by omega
      rw [hk]
      exact ih (k + 1) _ j'

theorem not_mem_symbolData (cfg : AITradingConfig) (env : CycleEnv) (sym : Str) (e : Str)
    (ht : env.ticker sym = Except.error e) :
    ∀ l : List Str, sym ∉ (l.filterMap (symbolDataFor cfg env)).map SymbolData.symbol := by
  intro l
  induction l with
  | nil => simp
  | cons a rest ih =>
    intro hmem
    rw [List.filterMap_cons] at hmem
    cases hsd : symbolDataFor cfg env a with
    | none =>
      rw [hsd] at hmem
      exact ih hmem
    | some sd =>
      rw [hsd, List.map_cons] at hmem
      rcases List.mem_cons.mp hmem with h1 | h2
      · unfold symbolDataFor at hsd
        cases hta : env.ticker a with
        | error e2 => rw [hta] at hsd; exact absurd hsd (by simp)
        | ok t =>
          rw [hta] at hsd
          have hsym : sd.symbol = a := by
            cases hsd
            rfl
          rw [hsym] at h1
          rw [h1] at ht
          rw [ht] at hta
          exact absurd hta (by simp)
      · exact ih h2

/-! ### Claims -/

/-- C9: the decoder is a deterministic pure function of the response text and
the `Date.now()` reading; on text that is a fixed point of the normalization
step (`cleanResponse`), decoding the normalized text again yields the
identical `ParseResult`. -/
theorem c9_decode_idempotent (t : Str) (ts : ℕ) (h : cleanResponse t = t) :
    parseAIResponse (cleanResponse t) ts = parseAIResponse t ts := by rw [h]

theorem c9_witness :
    cleanResponse (str ("no trade")) = str ("no trade") ∧
    parseAIResponse (cleanResponse (str ("no trade"))) 0 = parseAIResponse (str ("no trade")) 0 :=
  ⟨by decide, c9_decode_idempotent (str ("no trade")) 0 (by decide)⟩

/-- C2: `parseAIResponse` is total (it is a function in this embedding; every
operation of the source body is non-throwing and the outer catch still
returns a `ParseResult`), it echoes the raw response, every
`invalidInstructions` entry carries a nonempty descriptive error list, and
whenever no block is extracted the missing-blocks parse error is recorded. -/
theorem c2_decoder_total_and_descriptive (t : Str) (ts : ℕ) :
    (parseAIResponse t ts).rawResponse = t ∧
    (∀ e ∈ (parseAIResponse t ts).invalidInstructions, e.2 ≠ []) ∧
    (extractTradeBlocks (cleanResponse t) = [] →
      str ("No TRADE_DECISION blocks found in AI response") ∈ (parseAIResponse t ts).parseErrors) := by
  refine ⟨rfl, ?_, ?_⟩
  · intro e he
    exact partitionValidated_invalid _ e he
  · intro hb
    simp [parseAIResponse, decoderParseErrors, hb]

theorem c2_witness :
    extractTradeBlocks (cleanResponse (str ("xyz"))) = [] ∧
    str ("No TRADE_DECISION blocks found in AI response") ∈
      (parseAIResponse (str ("xyz")) 0).parseErrors :=
  ⟨by decide, (c2_decoder_total_and_descriptive (str ("xyz")) 0).2.2 (by decide)⟩

/-- C1: when the daily trade count has reached the configured cap after the
day-rollover reset, the cycle short-circuits: the record is a successful
"skipped" result with empty instructions and execution results, and no
collaborator call (neither the market-data gather nor the model invocation)
is performed. -/
theorem c1_daily_cap_skips_cycle (cfg : AITradingConfig) (env : CycleEnv) (st : OrchState)
    (h : cfg.maxDailyTrades ≤ (resetDailyCountIfNeeded env.today st).dailyTradeCount) :
    (executeAITradingCycle cfg env st).1.success = true ∧
    (executeAITradingCycle cfg env st).1.instructions = [] ∧
    (executeAITradingCycle cfg env st).1.executionResults = [] ∧
    (executeAITradingCycle cfg env st).1.aiResponse =
      str ("Cycle skipped: Daily trade limit reached") ∧
    (executeAITradingCycle cfg env st).2.2 = [] := by
  unfold executeAITradingCycle
  rw [if_pos h]
  refine ⟨rfl, rfl, rfl, ?_, rfl⟩
  show str ("Cycle skipped: ") ++ str ("Daily trade limit reached") =
    str ("Cycle skipped: Daily trade limit reached")
  decide

theorem c1_witness :
    w1Cfg.maxDailyTrades ≤ (resetDailyCountIfNeeded w1Env.today w1St).dailyTradeCount ∧
    (executeAITradingCycle w1Cfg w1Env w1St).1.success = true ∧
    (executeAITradingCycle w1Cfg w1Env w1St).1.instructions = [] ∧
    (executeAITradingCycle w1Cfg w1Env w1St).2.2 = [] :=
  ⟨by decide,
   (c1_daily_cap_skips_cycle w1Cfg w1Env w1St (by decide)).1,
   (c1_daily_cap_skips_cycle w1Cfg w1Env w1St (by decide)).2.1,
   (c1_daily_cap_skips_cycle w1Cfg w1Env w1St (by decide)).2.2.2.2⟩

/-- C3 fails as stated: the response consisting of exactly `Action: HOLD` is
picked up by the looser extraction as one block whose parsed action is HOLD,
yet decoding yields no instruction at all, because `parseTradeBlock` requires
a symbol before the HOLD branch is reached. -/
theorem c3_counterexample :
    extractTradeBlocks (cleanResponse (str ("Action: HOLD"))) = [str ("Action: HOLD")] ∧
    (blockFields (str ("Action: HOLD"))).action = some Action.HOLD ∧
    (parseAIResponse (str ("Action: HOLD")) 0).instructions = [] := by decide

/-- C3 (amended): a recognized block whose parsed action is HOLD *and whose
parsed symbol is present (truthy)* yields one HOLD instruction with a
non-empty reason, confidence defaulting to 50 when none was parsed, priority
defaulting to LOW when none was parsed, and with every other optional field
dropped regardless of what else was parsed. -/
theorem c3_hold_block_defaults (b : Str) (ts : ℕ)
    (ha : (blockFields b).action = some Action.HOLD)
    (hs : jsFalsyStrOpt (blockFields b).symbol = false) :
    ∃ inst, parseTradeBlock b ts = some inst ∧ inst.action = Action.HOLD ∧
      (∃ r, inst.reason = some r ∧ r ≠ []) ∧
      ((blockFields b).confidence = none → inst.confidence = some 50) ∧
      ((blockFields b).priority = none → inst.priority = some Priority.LOW) ∧
      inst.quantity = none ∧ inst.leverage = none ∧ inst.price = none := by
  have hpt : parseTradeBlock b ts = some
      { action := Action.HOLD
        symbol := jsOrStr (blockFields b).symbol (str ("ALL"))
        reason := some (jsOrStr (blockFields b).reason
          (str ("AI recommends holding current positions")))
        confidence := some (jsOrQ (blockFields b).confidence 50)
        priority := some ((blockFields b).priority.getD Priority.LOW)
        timestamp := ts } := by
    simp [parseTradeBlock, ha, hs]
  refine ⟨_, hpt, rfl, ?_, ?_, ?_, rfl, rfl, rfl⟩
  · exact ⟨_, rfl, jsOrStr_ne_nil (blockFields b).reason _ (by decide)⟩
  · intro hc
    show some (jsOrQ (blockFields b).confidence 50) = some 50
    rw [hc]
    rfl
  · intro hp
    show some ((blockFields b).priority.getD Priority.LOW) = some Priority.LOW
    rw [hp]
    rfl

theorem c3_witness :
    (blockFields (str ("Action: HOLD\nSymbol: BTC"))).action = some Action.HOLD ∧
    jsFalsyStrOpt (blockFields (str ("Action: HOLD\nSymbol: BTC"))).symbol = false ∧
    (∃ inst, parseTradeBlock (str ("Action: HOLD\nSymbol: BTC")) 0 = some inst ∧
      inst.action = Action.HOLD ∧
      (∃ r, inst.reason = some r ∧ r ≠ []) ∧
      ((blockFields (str ("Action: HOLD\nSymbol: BTC"))).confidence = none →
        inst.confidence = some 50) ∧
      ((blockFields (str ("Action: HOLD\nSymbol: BTC"))).priority = none →
        inst.priority = some Priority.LOW) ∧
      inst.quantity = none ∧ inst.leverage = none ∧ inst.price = none) :=
  ⟨by decide, by decide,
   c3_hold_block_defaults (str ("Action: HOLD\nSymbol: BTC")) 0 (by decide) (by decide)⟩

/-- C4 fails as stated: a decoded CLOSE instruction with leverage 100 —
outside `[1,50]` — is validated with no error at all, because the leverage
check only runs for actions other than HOLD and CLOSE. -/
theorem c4_counterexample :
    (parseAIResponse (str ("TRADE_DECISION:\nAction: CLOSE\nSymbol: BTCUSDT\nLeverage: 100\nConfidence: 80\nReason: tp")) 0).instructions.map
        (fun i => i.leverage) = [some 100] ∧
    (parseAIResponse (str ("TRADE_DECISION:\nAction: CLOSE\nSymbol: BTCUSDT\nLeverage: 100\nConfidence: 80\nReason: tp")) 0).instructions.map
        (fun i => (validateInstruction i).errors) = [[]] := by decide

/-- C4 (amended): `validateInstruction` reports the confidence-range error
whenever the confidence is present and outside `[0,100]`; the leverage-range
error is reported only for actions other than HOLD and CLOSE, and only when
leverage is present and nonzero (truthy) and outside `[1,50]`. -/
theorem c4_validation_ranges (inst : TradingInstruction) :
    (∀ c : ℚ, inst.confidence = some c → (c < 0 ∨ 100 < c) →
      str ("Confidence must be between 0 and 100") ∈ (validateInstruction inst).errors) ∧
    (∀ l : ℚ, inst.action ≠ Action.HOLD → inst.action ≠ Action.CLOSE →
      inst.leverage = some l → l ≠ 0 → (l < 1 ∨ 50 < l) →
      str ("Leverage must be between 1 and 50") ∈ (validateInstruction inst).errors) := by
  constructor
  · intro c hc hout
    have hconf : confidenceRangeErrors inst.confidence =
        [str ("Confidence must be between 0 and 100")] := by
      rw [hc]
      unfold confidenceRangeErrors jsLtOpt jsGtOpt
      rcases hout with h | h
      · simp [h]
      · simp [h]
    unfold validateInstruction
    simp only [List.mem_append, hconf, List.mem_singleton]
    tauto
  · intro l hH hC hl hnz hout
    have hlev : leverageRangeErrors inst.leverage =
        [str ("Leverage must be between 1 and 50")] := by
      rw [hl]
      unfold leverageRangeErrors jsTruthyQ jsLtOpt jsGtOpt
      rcases hout with h | h
      · simp [h, hnz]
      · simp [h, hnz]
    have hnhc : (!(inst.action == Action.HOLD) && !(inst.action == Action.CLOSE)) = true := by
      simp [hH, hC]
    unfold validateInstruction
    simp only [hnhc, if_true, List.mem_append, hlev, List.mem_singleton]
    tauto

theorem c4_witness :
    w4Inst.confidence = some 150 ∧ ((150 : ℚ) < 0 ∨ 100 < (150 : ℚ)) ∧
    w4Inst.leverage = some 100 ∧ ((100 : ℚ) < 1 ∨ 50 < (100 : ℚ)) ∧
    str ("Confidence must be between 0 and 100") ∈ (validateInstruction w4Inst).errors ∧
    str ("Leverage must be between 1 and 50") ∈ (validateInstruction w4Inst).errors :=
  ⟨rfl, Or.inr (by decide), rfl, Or.inr (by decide),
   (c4_validation_ranges w4Inst).1 150 rfl (Or.inr (by decide)),
   (c4_validation_ranges w4Inst).2 100 (by decide) (by decide) rfl (by decide)
     (Or.inr (by decide))⟩

/-- C6 fails as stated: `"no trade today"` contains the phrase "no trade" and
no `TRADE_DECISION:` marker, yet the looser keyword extraction finds a block
(`"trade today"`), so the fallback never runs: decoding yields zero
instructions and records no parse error. -/
theorem c6_counterexample :
    containsSub (str ("no trade")) (toLowerStr (cleanResponse (str ("no trade today")))) = true ∧
    splitAtFirstCI marker (cleanResponse (str ("no trade today"))) = none ∧
    (parseAIResponse (str ("no trade today")) 0).instructions = [] ∧
    (parseAIResponse (str ("no trade today")) 0).parseErrors = [] := by decide

/-- C6 (amended): when block extraction — the `TRADE_DECISION:` scan *and*
the looser `TRADE`/`DECISION`/`ACTION` scan — yields no blocks and the
normalized text contains "no trade", decoding yields exactly one HOLD
instruction (`fallbackHold`) and records the missing-blocks parse error. -/
theorem c6_fallback_hold_and_error (t : Str) (ts : ℕ)
    (hb : extractTradeBlocks (cleanResponse t) = [])
    (hnt : containsSub (str ("no trade")) (toLowerStr (cleanResponse t)) = true) :
    (parseAIResponse t ts).instructions = [fallbackHold ts] ∧
    (parseAIResponse t ts).parseErrors =
      [str ("No TRADE_DECISION blocks found in AI response")] := by
  constructor
  · show rawInstructions (cleanResponse t) ts = [fallbackHold ts]
    unfold rawInstructions
    rw [if_pos hb]
    simp [parseFallbackResponse, hnt, fallbackHold]
  · show decoderParseErrors (cleanResponse t) = _
    unfold decoderParseErrors
    rw [if_pos hb]

theorem c6_witness :
    extractTradeBlocks (cleanResponse (str ("no trade"))) = [] ∧
    containsSub (str ("no trade")) (toLowerStr (cleanResponse (str ("no trade")))) = true ∧
    (parseAIResponse (str ("no trade")) 0).instructions = [fallbackHold 0] ∧
    (parseAIResponse (str ("no trade")) 0).parseErrors =
      [str ("No TRADE_DECISION blocks found in AI response")] :=
  ⟨by decide, by decide,
   (c6_fallback_hold_and_error (str ("no trade")) 0 (by decide) (by decide)).1,
   (c6_fallback_hold_and_error (str ("no trade")) 0 (by decide) (by decide)).2⟩

/-- C7 fails as stated: a decoded BUY block with no confidence key leaves the
instruction's confidence `undefined`, not `0`. -/
theorem c7_counterexample :
    (parseAIResponse (str ("TRADE_DECISION:\nAction: BUY\nSymbol: BTCUSDT\nQuantity: 1\nReason: momentum")) 0).instructions.map
        (fun i => i.confidence) = [none] ∧
    ([none] : List (Option ℚ)) ≠ [some 0] := by decide

/-- C7 (amended): a decoded non-HOLD block with no confidence line leaves the
confidence field `undefined`; such an instruction is *not* caught by the
confidence range validation, compares false against any threshold, and
survives the orchestrator's minimum-confidence filter whenever its symbol is
in the configured pairs. -/
theorem c7_missing_confidence_undefined (b : Str) (ts : ℕ) (inst : TradingInstruction)
    (hp : parseTradeBlock b ts = some inst)
    (hc : (blockFields b).confidence = none)
    (hnh : inst.action ≠ Action.HOLD) :
    inst.confidence = none ∧
    confidenceRangeErrors inst.confidence = [] ∧
    (∀ thr : ℚ, jsLtOpt inst.confidence thr = false) ∧
    (∀ cfg pr, inst ∈ pr.validInstructions → inst.symbol ∈ cfg.tradingPairs →
      inst ∈ filterInstructions cfg pr) := by
  have hconf : inst.confidence = none := by
    unfold parseTradeBlock at hp
    cases hact : (blockFields b).action with
    | none => simp [hact] at hp
    | some a =>
      simp only [hact] at hp
      by_cases hsy : jsFalsyStrOpt (blockFields b).symbol = true
      · simp [hsy] at hp
      · simp only [Bool.not_eq_true] at hsy
        simp only [hsy, Bool.false_eq_true, if_false] at hp
        by_cases hah : a = Action.HOLD
        · subst hah
          rw [if_pos rfl] at hp
          injection hp with h
          have : inst.action = Action.HOLD := by rw [← h]
          exact absurd this hnh
        · rw [if_neg hah] at hp
          injection hp with h
          rw [← h, hc]
  refine ⟨hconf, ?_, ?_, ?_⟩
  · rw [hconf]; rfl
  · intro thr; rw [hconf]; rfl
  · intro cfg pr hmem hsymb
    refine List.mem_filter.mpr ⟨hmem, ?_⟩
    rw [hconf]
    simp [jsLtOpt, hsymb, hnh]

theorem c7_witness :
    parseTradeBlock (str ("Action: BUY\nSymbol: BTCUSDT\nQuantity: 1")) 0 = some w7Inst ∧
    (blockFields (str ("Action: BUY\nSymbol: BTCUSDT\nQuantity: 1"))).confidence = none ∧
    w7Inst.action ≠ Action.HOLD ∧
    w7Inst.confidence = none ∧
    (∀ thr : ℚ, jsLtOpt w7Inst.confidence thr = false) :=
  ⟨by decide, by decide, by decide,
   (c7_missing_confidence_undefined (str ("Action: BUY\nSymbol: BTCUSDT\nQuantity: 1")) 0 w7Inst
     (by decide) (by decide) (by decide)).1,
   (c7_missing_confidence_undefined (str ("Action: BUY\nSymbol: BTCUSDT\nQuantity: 1")) 0 w7Inst
     (by decide) (by decide) (by decide)).2.2.1⟩

/-- C10: a HOLD instruction produced by the fallback parse is exactly
`fallbackHold`, carries symbol `ALL` — which is not in the supported-pairs
allow-list — and is therefore always invalid with the
`Invalid trading symbol: ALL` error; in the decode result it lands in
`invalidInstructions` and never in `validInstructions`. -/
theorem c10_fallback_hold_always_invalid (t : Str) (ts : ℕ) (inst : TradingInstruction)
    (hb : extractTradeBlocks (cleanResponse t) = [])
    (hf : parseFallbackResponse (cleanResponse t) ts = some inst)
    (hh : inst.action = Action.HOLD) :
    inst.symbol = str ("ALL") ∧
    isValidSymbol inst.symbol = false ∧
    (validateInstruction inst).isValid = false ∧
    str ("Invalid trading symbol: ALL") ∈ (validateInstruction inst).errors ∧
    (parseAIResponse t ts).validInstructions = [] ∧
    (parseAIResponse t ts).invalidInstructions = [(inst, (validateInstruction inst).errors)] := by
  have hinst : inst = fallbackHold ts := by
    unfold parseFallbackResponse at hf
    by_cases hcond : (containsSub (str ("hold")) (toLowerStr (cleanResponse t)) ||
        containsSub (str ("wait")) (toLowerStr (cleanResponse t)) ||
        containsSub (str ("no trade")) (toLowerStr (cleanResponse t))) = true
    · rw [if_pos hcond] at hf
      injection hf with h
      rw [← h]
      rfl
    · rw [if_neg hcond] at hf
      cases hact : fallbackAction (toLowerStr (cleanResponse t)) with
      | none =>
        rw [hact] at hf
        exact Option.noConfusion hf
      | some a =>
        rw [hact] at hf
        cases hsym : findSymbolToken (cleanResponse t) with
        | none =>
          rw [hsym] at hf
          exact Option.noConfusion hf
        | some sym =>
          rw [hsym] at hf
          injection hf with h
          have hA : a = Action.HOLD := by rw [← h] at hh; exact hh
          rw [hA] at hact
          exact absurd hact (fallbackAction_ne_hold _)
  subst hinst
  have hval : validateInstruction (fallbackHold ts) =
      { isValid := false, errors := [str ("Invalid trading symbol: ALL")], warnings := [] } := rfl
  have hraw : rawInstructions (cleanResponse t) ts = [fallbackHold ts] := by
    unfold rawInstructions
    rw [if_pos hb, hf]
  refine ⟨rfl, rfl, by rw [hval], by rw [hval]; exact List.mem_singleton.mpr rfl, ?_, ?_⟩
  · show (partitionValidated (rawInstructions (cleanResponse t) ts)).1 = []
    rw [hraw]
    unfold partitionValidated
    rw [hval]
    rfl
  · show (partitionValidated (rawInstructions (cleanResponse t) ts)).2 = _
    rw [hraw]
    unfold partitionValidated
    rw [hval]
    rfl

theorem c10_witness :
    extractTradeBlocks (cleanResponse (str ("no trade"))) = [] ∧
    parseFallbackResponse (cleanResponse (str ("no trade"))) 0 = some (fallbackHold 0) ∧
    (fallbackHold 0).action = Action.HOLD ∧
    (fallbackHold 0).symbol = str ("ALL") ∧
    (validateInstruction (fallbackHold 0)).isValid = false ∧
    (parseAIResponse (str ("no trade")) 0).validInstructions = [] :=
  ⟨by decide, by decide, rfl, rfl,
   (c10_fallback_hold_always_invalid (str ("no trade")) 0 (fallbackHold 0)
     (by decide) (by decide) rfl).2.2.1,
   (c10_fallback_hold_always_invalid (str ("no trade")) 0 (fallbackHold 0)
     (by decide) (by decide) rfl).2.2.2.2.1⟩

/-- C5: within one cycle's sequential execution of the surviving
instructions, a risk-manager rejection of the call-`i` instruction makes that
instruction's `ExecutionResult` a failure, leaves every other instruction's
result what the risk manager and executor give it (in particular an earlier
successfully executed instruction keeps `success = true`), and never aborts
the remaining instructions — one result per instruction.  The final
implication ties the loop to the cycle: in a live (non-dry-run) cycle that
reaches execution, these results are exactly the cycle's
`executionResults`. -/
theorem c5_risk_rejection_isolated (cfg : AITradingConfig) (env : CycleEnv) (st : OrchState)
    (insts : List TradingInstruction) (i : ℕ) (instI : TradingInstruction)
    (hi : insts.get? i = some instI)
    (hreject : (env.assessRisk i instI).canExecute = false) :
    (runInstructions env 0 st insts).1.length = insts.length ∧
    ((runInstructions env 0 st insts).1.get? i = some (execInstruction env i instI) ∧
      (execInstruction env i instI).success = false) ∧
    (∀ j instJ r, insts.get? j = some instJ →
      (env.assessRisk j instJ).canExecute = true →
      env.execute j instJ = Except.ok r →
      (runInstructions env 0 st insts).1.get? j = some r) ∧
    (∀ content a ps,
      cfg.dryRun = false →
      (resetDailyCountIfNeeded env.today st).dailyTradeCount < cfg.maxDailyTrades →
      env.accountInfo = Except.ok a →
      env.positions = Except.ok ps →
      env.aiContent = Except.ok content →
      filterInstructions cfg (parseAIResponse content env.now) = insts →
      insts ≠ [] →
      (executeAITradingCycle cfg env st).1.executionResults =
        (runInstructions env 0 st insts).1) := by
  refine ⟨runInstructions_length env insts 0 st, ⟨?_, ?_⟩, ?_, ?_⟩
  · rw [runInstructions_getElem? env insts 0 st i, hi]
    simp
  · simp [execInstruction, hreject]
  · intro j instJ r hj hrisk hexec
    rw [runInstructions_getElem? env insts 0 st j, hj]
    simp only [Option.map_some, Nat.zero_add, Option.some_inj]
    simp [execInstruction, hrisk, hexec]
  · intro content a ps hdry hcap hacc hpos hai hfilter hne
    unfold executeAITradingCycle gatherMarketData
    rw [if_neg (Nat.not_le.mpr hcap)]
    simp only [hacc, hpos, hai, hfilter, hdry]
    have hlen : decide (0 < insts.length) = true := decide_eq_true (List.length_pos.mpr hne)
    simp only [hlen, Bool.not_false, Bool.true_and, if_true]
    exact runInstructions_fst_indep env insts 0 (resetDailyCountIfNeeded env.today st) st

theorem c5_witness :
    (filterInstructions w5Cfg (parseAIResponse w5Content 0)).get? 1 = some w5Sell ∧
    (w5Env.assessRisk 1 w5Sell).canExecute = false ∧
    ((runInstructions w5Env 0 w5St
          (filterInstructions w5Cfg (parseAIResponse w5Content 0))).1.get? 1 =
        some (execInstruction w5Env 1 w5Sell) ∧
      (execInstruction w5Env 1 w5Sell).success = false) ∧
    (runInstructions w5Env 0 w5St
        (filterInstructions w5Cfg (parseAIResponse w5Content 0))).1.get? 0 =
      some w5OkResult ∧
    w5OkResult.success = true :=
  ⟨by decide, by decide,
   (c5_risk_rejection_isolated w5Cfg w5Env w5St
     (filterInstructions w5Cfg (parseAIResponse w5Content 0)) 1 w5Sell
     (by decide) (by decide)).2.1,
   (c5_risk_rejection_isolated w5Cfg w5Env w5St
     (filterInstructions w5Cfg (parseAIResponse w5Content 0)) 1 w5Sell
     (by decide) (by decide)).2.2.1 0 w5Buy w5OkResult (by decide) (by decide) rfl,
   rfl⟩

/-- C8 fails as stated: with the account and position reads succeeding, the
failure of the only symbol's price/ticker fetch does *not* surface as a
cycle-level failure — `gatherMarketData` succeeds and the symbol is silently
absent from the gathered data. -/
theorem c8_counterexample :
    w8Env.ticker (str ("BTCUSDT")) = Except.error (str ("boom")) ∧
    str ("BTCUSDT") ∈ w8Cfg.tradingPairs ∧
    gatherMarketData w8Cfg w8Env = Except.ok w8Md ∧
    w8Md.symbols = [] := by
  exact ⟨rfl, by decide, rfl, rfl⟩

/-- C8 (amended): a failure of the account-info or open-positions read is
surfaced as a cycle-level gather failure; a per-symbol ticker failure is
silently ignored — the gather succeeds and that symbol is simply absent; and
a per-symbol kline (technical-indicator) fetch failure degrades to the
neutral default indicator values instead of aborting anything. -/
theorem c8_gather_failure_semantics (cfg : AITradingConfig) (env : CycleEnv) :
    (∀ e, env.accountInfo = Except.error e → gatherMarketData cfg env = Except.error e) ∧
    (∀ a e, env.accountInfo = Except.ok a → env.positions = Except.error e →
      gatherMarketData cfg env = Except.error e) ∧
    (∀ a ps, env.accountInfo = Except.ok a → env.positions = Except.ok ps →
      ∃ md, gatherMarketData cfg env = Except.ok md ∧
        ∀ sym e, env.ticker sym = Except.error e →
          sym ∉ md.symbols.map SymbolData.symbol) ∧
    (∀ sym e, env.klines sym = Except.error e →
      getTechnicalIndicators cfg env sym = neutralIndicators) := by
  refine ⟨?_, ?_, ?_, ?_⟩
  · intro e he
    unfold gatherMarketData
    rw [he]
  · intro a e ha hp
    unfold gatherMarketData
    rw [ha, hp]
  · intro a ps ha hp
    refine ⟨{ timestamp := env.now
              symbols := getSymbolData cfg env
              accountInfo := a
              currentPositions := ps.filter (fun p => decide (p.positionAmt ≠ 0))
              marketTrends := analyzeTrends (getSymbolData cfg env)
              riskMetrics := calculateRiskMetrics ps a }, ?_, ?_⟩
    · unfold gatherMarketData
      rw [ha, hp]
    · intro sym e ht
      exact not_mem_symbolData cfg env sym e ht cfg.tradingPairs
  · intro sym e hk
    unfold getTechnicalIndicators
    cases henb : cfg.technicalIndicatorsEnabled with
    | false => simp
    | true => simp [hk]

theorem c8_witness :
    w8FailEnv.accountInfo = Except.error (str ("account down")) ∧
    gatherMarketData w8Cfg w8FailEnv = Except.error (str ("account down")) :=
  ⟨rfl, (c8_gather_failure_semantics w8Cfg w8FailEnv).1 (str ("account down")) rfl⟩

end Nof1
